import Mathlib

/-!
Shallow embedding of `src/js/betting-engine.js` from the WagerWire simulation,
covering the settlement core (`calculateEnhancedPredictedResult`,
`calculatePayout`) and the emotion mapping (`getEmotionFromResult`,
`getInProgressEmotion`).

Modelling conventions:
* JS numbers flowing through the score arithmetic are modelled as `Option ℚ`
  (`JNum`): `none` stands for JS `NaN` (and for `undefined`, which behaves
  exactly like `NaN` in the arithmetic and comparisons this code performs).
  Arithmetic propagates `none`, and every comparison against `none` is false,
  as in JS.
* JS strings are processed through their character lists (`String.data`).
  `split('-')`, `replace(/\s/g, '')`, `Number(...)`, `parseInt(...)` and
  `String.prototype.startsWith` are given structurally recursive models,
  restricted to the character shapes that reach them here (ASCII whitespace,
  plain decimal literals; the engine's score strings never contain hex,
  exponent or `Infinity` forms).
* The display-only detail suffix appended after the classification (the spec
  calls it "not semantically load-bearing") renders numbers with Lean's
  `toString` on `ℚ` instead of JS float formatting; no theorem below depends
  on the rendered digits of that suffix.
-/

namespace WagerWire

/-- A JS number in the score pipeline: `none` models `NaN` / `undefined`. -/
abbrev JNum := Option ℚ

/-- JS `+` on score values: `NaN` propagates. -/
def nAdd : JNum → JNum → JNum
  | some a, some b => some (a + b)
  | none, _ => none
  | some _, none => none

/-- JS `-` on score values: `NaN` propagates. -/
def nSub : JNum → JNum → JNum
  | some a, some b => some (a - b)
  | none, _ => none
  | some _, none => none

/-- The whitespace characters relevant to the `\s` regex and to `Number`'s
trimming for the ASCII score strings this engine receives. -/
def jsWhitespace (c : Char) : Bool :=
  c = ' ' || c = '\t' || c = '\n' || c = '\r'

/-- Decimal digit test (`[0-9]`). -/
def isDigitJS (c : Char) : Bool :=
  c = '0' || c = '1' || c = '2' || c = '3' || c = '4' ||
  c = '5' || c = '6' || c = '7' || c = '8' || c = '9'

/-- Numeric value of one decimal digit. -/
def digitVal (c : Char) : ℕ :=
  if c = '1' then 1 else if c = '2' then 2 else if c = '3' then 3
  else if c = '4' then 4 else if c = '5' then 5 else if c = '6' then 6
  else if c = '7' then 7 else if c = '8' then 8 else if c = '9' then 9
  else 0

/-- Value of a run of decimal digits (most significant first). -/
def digitsVal (cs : List Char) : ℕ :=
  cs.foldl (fun a c => a * 10 + digitVal c) 0

/-- JS `String.prototype.split('-')` on the character list: split at every
`'-'`; the empty string yields a single empty field, as in JS. -/
def splitDash : List Char → List (List Char)
  | [] => [[]]
  | c :: cs =>
    if c = '-' then [] :: splitDash cs
    else
      match splitDash cs with
      | [] => [[c]]
      | f :: fs => (c :: f) :: fs

/-- Value of a decimal literal: digits with at most one `'.'`
(so `"12"`, `"12.5"`, `".5"`, `"12."`); anything else is `NaN`. -/
def decValue (cs : List Char) : Option ℚ :=
  let ip := cs.takeWhile (fun c => c ≠ '.')
  match cs.dropWhile (fun c => c ≠ '.') with
  | [] => if ip ≠ [] && ip.all isDigitJS then some (digitsVal ip : ℚ) else none
  | _ :: fp =>
    if (ip ≠ [] || fp ≠ []) && ip.all isDigitJS && fp.all isDigitJS then
      some ((digitsVal ip : ℚ) + (digitsVal fp : ℚ) / 10 ^ fp.length)
    else none

/-- JS `Number(string)` on the forms a score field can take: surrounding
whitespace is trimmed, the empty string is `0`, an optional sign precedes a
decimal literal, and anything else is `NaN`. -/
def jsNumber (cs : List Char) : JNum :=
  let t := ((cs.dropWhile jsWhitespace).reverse.dropWhile jsWhitespace).reverse
  match t with
  | [] => some 0
  | '-' :: rest => (decValue rest).map (fun q => -q)
  | '+' :: rest => decValue rest
  | _ => decValue t

/-- JS `parseInt(string)` in base 10: an optional sign, then a maximal digit
run; `NaN` when no digit is found.  (The call site has already removed all
whitespace via `replace(/\s/g, '')`.) -/
def parseIntJS (cs : List Char) : Option ℤ :=
  let core : List Char → Option ℤ := fun ds =>
    match ds.takeWhile isDigitJS with
    | [] => none
    | ds' => some (digitsVal ds' : ℤ)
  match cs with
  | '-' :: rest => (core rest).map (fun z => -z)
  | '+' :: rest => core rest
  | _ => core cs

/-- Line 122: first field of `currentScore.split('-').map(Number)` (a missing
field is `undefined`, which then behaves like `NaN`). -/
def currentHome (s : String) : JNum :=
  (((splitDash s.data).map jsNumber).get? 0).join

/-- Line 122: second field of `currentScore.split('-').map(Number)`. -/
def currentAway (s : String) : JNum :=
  (((splitDash s.data).map jsNumber).get? 1).join

/-- Lines 123-137: the goals adjusted by the bet-time snapshot.  A missing
(`null`), empty, `'N/A'`, malformed (not exactly two `'-'`-separated parts)
or non-numeric snapshot is silently skipped and the current goals are used
unadjusted. -/
def adjustedGoals (betTimeScore : Option String) (currentScore : String) : JNum × JNum :=
  let ch := currentHome currentScore
  let ca := currentAway currentScore
  match betTimeScore with
  | none => (ch, ca)
  | some bts =>
    -- JS truthiness: `null` and `''` are falsy, so both are skipped.
    if bts ≠ "" ∧ bts ≠ "N/A" then
      match splitDash (bts.data.filter (fun c => !jsWhitespace c)) with
      | [p0, p1] =>
        match parseIntJS p0, parseIntJS p1 with
        | some bh, some ba =>
          (nSub ch (some (bh : ℚ)), nSub ca (some (ba : ℚ)))
        | _, _ => (ch, ca)
      | _ => (ch, ca)
    else (ch, ca)

/-- `Math.round(x * 100) / 100` (lines 148 and 172); `Math.round` rounds
half-way cases towards positive infinity. -/
def round2 (x : ℚ) : ℚ := ((⌊x * 100 + 1 / 2⌋ : ℤ) : ℚ) / 100

/-- `round2` on a JS number: `Math.round(NaN)` is `NaN`. -/
def nRound2 : JNum → JNum := Option.map round2

/-- The five-way `if` chain duplicated verbatim at lines 150-160 and 174-184.
For `NaN` every comparison in the chain is false, so the final `else`
produces `"Loss"`. -/
def classifyMargin : JNum → String
  | none => "Loss"
  | some rounded =>
    if 1 / 2 ≤ rounded then "Win"
    else if rounded = 1 / 4 then "Half Win"
    else if rounded = 0 then "Push"
    else if rounded = -(1 / 4) then "Half Loss"
    else "Loss"

/-- Template interpolation of a JS score value into the display-only suffix. -/
def dispJ : JNum → String
  | some q => toString q
  | none => "NaN"

/-- Lines 119-190: `calculateEnhancedPredictedResult`.  `selectionLine`
arrives as a number, so `parseFloat(selectionLine.toString())` is the
identity on it. -/
def calculateEnhancedPredictedResult (selectionCombo : String) (selectionLine : ℚ)
    (betTimeScore : Option String) (currentScore : String) : String :=
  let line := selectionLine
  let adj := adjustedGoals betTimeScore currentScore
  if selectionCombo = "Home Team" ∨ selectionCombo = "Away Team" then
    let goalDiff := if selectionCombo = "Home Team" then nSub adj.1 adj.2 else nSub adj.2 adj.1
    let rounded := nRound2 (nAdd goalDiff (some line))
    classifyMargin rounded ++ " - " ++ selectionCombo ++ " (" ++ toString line ++ ") (" ++
      dispJ adj.1 ++ "-" ++ dispJ adj.2 ++ ")"
  else if selectionCombo = "Over" ∨ selectionCombo = "Under" then
    let totalGoals := nAdd (currentHome currentScore) (currentAway currentScore)
    let diff := if selectionCombo = "Over" then nSub totalGoals (some line)
      else nSub (some line) totalGoals
    let rounded := nRound2 diff
    classifyMargin rounded ++ " - " ++ selectionCombo ++ " (" ++ toString line ++ ") (" ++
      dispJ totalGoals ++ " goals)"
  else "Pending"

/-- JS `String.prototype.startsWith`. -/
def jsStartsWith (s pre : String) : Bool := pre.data.isPrefixOf s.data

/-- Lines 242-257: `calculatePayout`.  `stake` and `odds` arrive as numbers,
so the `parseFloat` calls are the identity; the function is total — there is
no validation and no failure path. -/
def calculatePayout (result : String) (stake odds : ℚ) : ℚ :=
  if jsStartsWith result "Win" then stake * odds
  else if jsStartsWith result "Half Win" then stake + stake * (odds - 1) * (1 / 2)
  else if jsStartsWith result "Push" then stake
  else if jsStartsWith result "Half Loss" then stake * (1 / 2)
  else 0

/-- The emotion record returned by the two mapping functions. -/
structure Emotion where
  emoji : String
  state : String
  blurb : String
deriving Repr, DecidableEq

/-- Lines 264-278: `getEmotionFromResult` (settled mapping). -/
def getEmotionFromResult (result : String) : Emotion :=
  if jsStartsWith result "Win" then ⟨"🎉", "joy", "Celebrating win!"⟩
  else if jsStartsWith result "Half Win" then ⟨"😊", "relief", "Half win - not bad!"⟩
  else if jsStartsWith result "Push" then ⟨"😐", "neutral", "Push - stake returned"⟩
  else if jsStartsWith result "Half Loss" then ⟨"😕", "annoyed", "Half loss - could be worse"⟩
  else if jsStartsWith result "Loss" then ⟨"😡", "anger", "Lost the bet!"⟩
  else ⟨"🤔", "thinking", "Checking result..."⟩

/-- Lines 285-293: `getInProgressEmotion` (provisional mapping). -/
def getInProgressEmotion (prediction : String) : Emotion :=
  if jsStartsWith prediction "Win" || jsStartsWith prediction "Half Win" then
    ⟨"🤞", "hopeful", "Looking good!"⟩
  else if jsStartsWith prediction "Loss" || jsStartsWith prediction "Half Loss" then
    ⟨"😰", "worried", "Not looking good..."⟩
  else ⟨"😐", "neutral", "Too close to call"⟩

/-- Spec §4.1 step 3: the classification table exactly as the specification
states it (for comparison against the code's classifier). -/
def specClassify (margin : ℚ) : String :=
  if 1 / 2 ≤ margin then "Win"
  else if margin = 1 / 4 then "Half Win"
  else if margin = 0 then "Push"
  else if margin = -(1 / 4) then "Half Loss"
  else "Loss"

/-- Spec §4.1 steps 1-2: the margin for absolute non-negative integer scores
`h`-`a` (no bet-time snapshot), as the specification words it. -/
def specMargin (sel : String) (line : ℚ) (h a : ℕ) : ℚ :=
  if sel = "Home Team" then round2 ((h : ℚ) - (a : ℚ) + line)
  else if sel = "Away Team" then round2 ((a : ℚ) - (h : ℚ) + line)
  else if sel = "Over" then round2 (((h : ℚ) + (a : ℚ)) - line)
  else round2 (line - ((h : ℚ) + (a : ℚ)))

/-! ### Helper lemmas -/

/-- The code's duplicated classification chain coincides literally with the
spec's table on non-`NaN` margins. -/
theorem classify_some (q : ℚ) : classifyMargin (some q) = specClassify q := rfl

/-- `round2` is exact on quarter-multiples: rounding absorbs no information
when the argument is `m / 4` for an integer `m`. -/
theorem round2_quarter (m : ℤ) : round2 ((m : ℚ) / 4) = (m : ℚ) / 4 := by
  have h1 : ((m : ℚ) / 4) * 100 + 1 / 2 = 1 / 2 + ((25 * m : ℤ) : ℚ) := by push_cast; ring
  rw [round2, h1, Int.floor_add_int]
  norm_num
  ring

/-- On quarter-multiples, a margin that falls in none of the four named
buckets is at most `-1/2`. -/
theorem quarter_gap (m : ℤ) (h1 : ¬ ((1:ℚ) / 2 ≤ (m : ℚ) / 4)) (h2 : (m : ℚ) / 4 ≠ 1 / 4)
    (h3 : (m : ℚ) / 4 ≠ 0) (h4 : (m : ℚ) / 4 ≠ -(1 / 4)) : (m : ℚ) / 4 ≤ -(1 / 2) := by
  push_neg at h1
  have hm2 : (m : ℚ) < 2 := by linarith
  have hm2' : m < 2 := by exact_mod_cast hm2
  have e1 : m ≠ 1 := by rintro rfl; exact h2 (by norm_num)
  have e2 : m ≠ 0 := by rintro rfl; exact h3 (by norm_num)
  have e3 : m ≠ -1 := by rintro rfl; exact h4 (by norm_num)
  have hle : m ≤ -2 := by omega
  have hle' : (m : ℚ) ≤ -2 := by exact_mod_cast hle
  linarith

/-- A string starts with any string it begins by. -/
theorem jsStartsWith_append (a t : String) : jsStartsWith (a ++ t) a = true := by
  simp [jsStartsWith, String.data_append, List.isPrefixOf_iff_prefix]

/-- A `null` snapshot leaves the current goals untouched. -/
theorem adjustedGoals_none (s : String) :
    adjustedGoals none s = (currentHome s, currentAway s) := rfl

/-- Subtracting a zero snapshot side is the identity (also on `NaN`). -/
theorem nSub_zero (x : JNum) : nSub x (some 0) = x := by
  cases x <;> simp [nSub]

/-- `NaN` propagates through `-` from the left. -/
theorem nSub_none_left (x : JNum) : nSub none x = none := by cases x <;> rfl

/-- `NaN` propagates through `-` from the right. -/
theorem nSub_none_right (x : JNum) : nSub x none = none := by cases x <;> rfl

/-- `NaN` propagates through `+` from the left. -/
theorem nAdd_none_left (x : JNum) : nAdd none x = none := by cases x <;> rfl

/-- `NaN` propagates through `+` from the right. -/
theorem nAdd_none_right (x : JNum) : nAdd x none = none := by cases x <;> rfl

/-- `Math.round` of `NaN` is `NaN`. -/
theorem nRound2_none : nRound2 none = none := rfl

/-- A `NaN` margin falls through every comparison to the final `else`. -/
theorem classifyMargin_none : classifyMargin none = "Loss" := rfl

/-- The Asian-handicap branch (lines 142-163), with the adjusted goals given
as a hypothesis. -/
theorem team_branch (sel : String) (hsel : sel = "Home Team" ∨ sel = "Away Team")
    (line : ℚ) (b : Option String) (s : String) (x y : JNum)
    (hadj : adjustedGoals b s = (x, y)) :
    ∃ t, calculateEnhancedPredictedResult sel line b s
      = classifyMargin (nRound2 (nAdd (if sel = "Home Team" then nSub x y else nSub y x)
          (some line))) ++ t := by
  rcases hsel with rfl | rfl
  · exact ⟨" - Home Team (" ++ (toString line ++ (") (" ++ (dispJ x ++ ("-" ++ (dispJ y ++ ")"))))),
      by simp [calculateEnhancedPredictedResult, hadj, String.append_assoc]⟩
  · exact ⟨" - Away Team (" ++ (toString line ++ (") (" ++ (dispJ x ++ ("-" ++ (dispJ y ++ ")"))))),
      by simp [calculateEnhancedPredictedResult, hadj, String.append_assoc]⟩

/-- The totals branch (lines 166-187): it reads only the raw current goals,
never the snapshot-adjusted ones. -/
theorem totals_branch (sel : String) (hsel : sel = "Over" ∨ sel = "Under") (line : ℚ)
    (b : Option String) (s : String) :
    ∃ t, calculateEnhancedPredictedResult sel line b s
      = classifyMargin (nRound2 (if sel = "Over"
          then nSub (nAdd (currentHome s) (currentAway s)) (some line)
          else nSub (some line) (nAdd (currentHome s) (currentAway s)))) ++ t := by
  rcases hsel with rfl | rfl
  · exact ⟨" - Over (" ++ (toString line ++ (") (" ++
        (dispJ (nAdd (currentHome s) (currentAway s)) ++ " goals)"))),
      by simp [calculateEnhancedPredictedResult, String.append_assoc]⟩
  · exact ⟨" - Under (" ++ (toString line ++ (") (" ++
        (dispJ (nAdd (currentHome s) (currentAway s)) ++ " goals)"))),
      by simp [calculateEnhancedPredictedResult, String.append_assoc]⟩

/-- Two snapshots producing equal adjusted goals produce identical results. -/
theorem calc_adj_congr (sel : String) (line : ℚ) (b b' : Option String) (s : String)
    (hadj : adjustedGoals b s = adjustedGoals b' s) :
    calculateEnhancedPredictedResult sel line b s
      = calculateEnhancedPredictedResult sel line b' s := by
  unfold calculateEnhancedPredictedResult
  rw [hadj]

/-- A `"0-0"` snapshot adjusts by zero on both sides, like no snapshot. -/
theorem adjustedGoals_zero (s : String) :
    adjustedGoals (some "0-0") s = adjustedGoals none s := by
  rw [adjustedGoals_none]
  show (nSub (currentHome s) (some (((0 : ℕ) : ℤ) : ℚ)),
        nSub (currentAway s) (some (((0 : ℕ) : ℤ) : ℚ))) = (currentHome s, currentAway s)
  have h0 : (((0 : ℕ) : ℤ) : ℚ) = 0 := by norm_num
  rw [h0, nSub_zero, nSub_zero]

/-- Whatever the snapshot, the adjusted goals are the current goals minus
some pair of numbers (zero when the adjustment is skipped). -/
theorem adjustedGoals_sub_form (b : Option String) (s : String) :
    ∃ u v : ℚ, adjustedGoals b s
      = (nSub (currentHome s) (some u), nSub (currentAway s) (some v)) := by
  have base : (currentHome s, currentAway s)
      = (nSub (currentHome s) (some 0), nSub (currentAway s) (some 0)) := by
    rw [nSub_zero, nSub_zero]
  cases b with
  | none => exact ⟨0, 0, by rw [adjustedGoals_none]; exact base⟩
  | some bts =>
    simp only [adjustedGoals]
    split
    · split
      · split
        · exact ⟨_, _, rfl⟩
        · exact ⟨0, 0, base⟩
      · exact ⟨0, 0, base⟩
    · exact ⟨0, 0, base⟩

/-- A snapshot that does not split into exactly two numeric parts — whether
it fails the two-part check at line 129 or the `isNaN` check at line 132 —
is silently skipped. -/
theorem snapshot_skipped (b : String) (s : String)
    (hb : ∀ p0 p1, splitDash (b.data.filter (fun c => !jsWhitespace c)) = [p0, p1] →
      parseIntJS p0 = none ∨ parseIntJS p1 = none) :
    adjustedGoals (some b) s = adjustedGoals none s := by
  rw [adjustedGoals_none]
  simp only [adjustedGoals]
  split
  · split
    next p0 p1 hL =>
      split
      next bh ba hQ0 hQ1 =>
        rcases hb p0 p1 hL with hP | hP
        · rw [hP] at hQ0; exact absurd hQ0 (by simp)
        · rw [hP] at hQ1; exact absurd hQ1 (by simp)
      next => rfl
    next => rfl
  · rfl

/-- `round2` at the concrete off-quarter margin 0.3 (score 0-0, line 0.3). -/
theorem round2_three_tenths : round2 (((0 : ℕ) : ℚ) - ((0 : ℕ) : ℚ) + 3 / 10) = 3 / 10 := by
  have he : ((0 : ℕ) : ℚ) - ((0 : ℕ) : ℚ) + 3 / 10 = 3 / 10 := by norm_num
  rw [he, round2]
  have hf : (⌊(3 : ℚ) / 10 * 100 + 1 / 2⌋ : ℤ) = 30 := by
    rw [Int.floor_eq_iff]; norm_num
  rw [hf]
  norm_num

/-! ### Claims -/

/-- Claim C1: for every selection type among Home Team / Away Team / Over /
Under, every line that is a multiple of 0.25, and all non-negative integer
scores, the engine classifies exactly by the computed margin as the spec's
table states (Win at ≥ 0.5, Half Win at 0.25, Push at 0, Half Loss at −0.25,
Loss otherwise), where the margin is `round2 (goalDiff + line)` for team
handicaps and `round2 (total − line)` / `round2 (line − total)` for Over /
Under; moreover a margin in none of the four named buckets is ≤ −0.5. -/
theorem C1_margin_classification (sel : String)
    (hsel : sel = "Home Team" ∨ sel = "Away Team" ∨ sel = "Over" ∨ sel = "Under")
    (k : ℤ) (h a : ℕ) (s : String)
    (hh : currentHome s = some ((h : ℕ) : ℚ)) (ha : currentAway s = some ((a : ℕ) : ℚ)) :
    (∃ t, calculateEnhancedPredictedResult sel ((k : ℚ) / 4) none s
        = specClassify (specMargin sel ((k : ℚ) / 4) h a) ++ t)
    ∧ (¬ ((1:ℚ) / 2 ≤ specMargin sel ((k : ℚ) / 4) h a) →
        specMargin sel ((k : ℚ) / 4) h a ≠ 1 / 4 →
        specMargin sel ((k : ℚ) / 4) h a ≠ 0 →
        specMargin sel ((k : ℚ) / 4) h a ≠ -(1 / 4) →
        specMargin sel ((k : ℚ) / 4) h a ≤ -(1 / 2)) := by
  have hadj : adjustedGoals none s = (some ((h : ℕ) : ℚ), some ((a : ℕ) : ℚ)) := by
    rw [adjustedGoals_none, hh, ha]
  rcases hsel with rfl | rfl | rfl | rfl
  · have hcast : (h : ℚ) - (a : ℚ) + (k : ℚ) / 4 = ((4 * h - 4 * a + k : ℤ) : ℚ) / 4 := by
      push_cast; ring
    have hm : round2 ((h : ℚ) - (a : ℚ) + (k : ℚ) / 4) = ((4 * h - 4 * a + k : ℤ) : ℚ) / 4 := by
      rw [hcast, round2_quarter]
    have hspec : specMargin "Home Team" ((k : ℚ) / 4) h a
        = ((4 * h - 4 * a + k : ℤ) : ℚ) / 4 := by
      simp [specMargin, hm]
    obtain ⟨t, ht⟩ := team_branch "Home Team" (Or.inl rfl) ((k : ℚ) / 4) none s _ _ hadj
    have hred : nRound2 (nAdd (if "Home Team" = "Home Team"
          then nSub (some ((h : ℕ) : ℚ)) (some ((a : ℕ) : ℚ))
          else nSub (some ((a : ℕ) : ℚ)) (some ((h : ℕ) : ℚ))) (some ((k : ℚ) / 4)))
        = some (((4 * h - 4 * a + k : ℤ) : ℚ) / 4) := by
      simp [nSub, nAdd, nRound2, hm]
    refine ⟨⟨t, ?_⟩, ?_⟩
    · rw [ht, hred, classify_some, hspec]
    · rw [hspec]; exact quarter_gap _
  · have hcast : (a : ℚ) - (h : ℚ) + (k : ℚ) / 4 = ((4 * a - 4 * h + k : ℤ) : ℚ) / 4 := by
      push_cast; ring
    have hm : round2 ((a : ℚ) - (h : ℚ) + (k : ℚ) / 4) = ((4 * a - 4 * h + k : ℤ) : ℚ) / 4 := by
      rw [hcast, round2_quarter]
    have hspec : specMargin "Away Team" ((k : ℚ) / 4) h a
        = ((4 * a - 4 * h + k : ℤ) : ℚ) / 4 := by
      simp [specMargin, hm]
    obtain ⟨t, ht⟩ := team_branch "Away Team" (Or.inr rfl) ((k : ℚ) / 4) none s _ _ hadj
    have hred : nRound2 (nAdd (if "Away Team" = "Home Team"
          then nSub (some ((h : ℕ) : ℚ)) (some ((a : ℕ) : ℚ))
          else nSub (some ((a : ℕ) : ℚ)) (some ((h : ℕ) : ℚ))) (some ((k : ℚ) / 4)))
        = some (((4 * a - 4 * h + k : ℤ) : ℚ) / 4) := by
      simp [nSub, nAdd, nRound2, hm]
    refine ⟨⟨t, ?_⟩, ?_⟩
    · rw [ht, hred, classify_some, hspec]
    · rw [hspec]; exact quarter_gap _
  · have hcast : (h : ℚ) + (a : ℚ) - (k : ℚ) / 4 = ((4 * h + 4 * a - k : ℤ) : ℚ) / 4 := by
      push_cast; ring
    have hm : round2 ((h : ℚ) + (a : ℚ) - (k : ℚ) / 4) = ((4 * h + 4 * a - k : ℤ) : ℚ) / 4 := by
      rw [hcast, round2_quarter]
    have hspec : specMargin "Over" ((k : ℚ) / 4) h a
        = ((4 * h + 4 * a - k : ℤ) : ℚ) / 4 := by
      simp [specMargin, hm]
    obtain ⟨t, ht⟩ := totals_branch "Over" (Or.inl rfl) ((k : ℚ) / 4) none s
    have hred : nRound2 (if "Over" = "Over"
          then nSub (nAdd (currentHome s) (currentAway s)) (some ((k : ℚ) / 4))
          else nSub (some ((k : ℚ) / 4)) (nAdd (currentHome s) (currentAway s)))
        = some (((4 * h + 4 * a - k : ℤ) : ℚ) / 4) := by
      simp [hh, ha, nSub, nAdd, nRound2, hm]
    refine ⟨⟨t, ?_⟩, ?_⟩
    · rw [ht, hred, classify_some, hspec]
    · rw [hspec]; exact quarter_gap _
  · have hcast : (k : ℚ) / 4 - ((h : ℚ) + (a : ℚ)) = ((k - 4 * h - 4 * a : ℤ) : ℚ) / 4 := by
      push_cast; ring
    have hm : round2 ((k : ℚ) / 4 - ((h : ℚ) + (a : ℚ))) = ((k - 4 * h - 4 * a : ℤ) : ℚ) / 4 := by
      rw [hcast, round2_quarter]
    have hspec : specMargin "Under" ((k : ℚ) / 4) h a
        = ((k - 4 * h - 4 * a : ℤ) : ℚ) / 4 := by
      simp [specMargin, hm]
    obtain ⟨t, ht⟩ := totals_branch "Under" (Or.inr rfl) ((k : ℚ) / 4) none s
    have hred : nRound2 (if "Under" = "Over"
          then nSub (nAdd (currentHome s) (currentAway s)) (some ((k : ℚ) / 4))
          else nSub (some ((k : ℚ) / 4)) (nAdd (currentHome s) (currentAway s)))
        = some (((k - 4 * h - 4 * a : ℤ) : ℚ) / 4) := by
      simp [hh, ha, nSub, nAdd, nRound2, hm]
    refine ⟨⟨t, ?_⟩, ?_⟩
    · rw [ht, hred, classify_some, hspec]
    · rw [hspec]; exact quarter_gap _

/-- Witness for C1 at selection Over, line 2.5 (= 10/4), score 2-1. -/
theorem C1_margin_classification_witness :
    (∃ t, calculateEnhancedPredictedResult "Over" (((10 : ℤ) : ℚ) / 4) none "2-1"
        = specClassify (specMargin "Over" (((10 : ℤ) : ℚ) / 4) 2 1) ++ t)
    ∧ (¬ ((1:ℚ) / 2 ≤ specMargin "Over" (((10 : ℤ) : ℚ) / 4) 2 1) →
        specMargin "Over" (((10 : ℤ) : ℚ) / 4) 2 1 ≠ 1 / 4 →
        specMargin "Over" (((10 : ℤ) : ℚ) / 4) 2 1 ≠ 0 →
        specMargin "Over" (((10 : ℤ) : ℚ) / 4) 2 1 ≠ -(1 / 4) →
        specMargin "Over" (((10 : ℤ) : ℚ) / 4) 2 1 ≤ -(1 / 2)) :=
  C1_margin_classification "Over" (Or.inr (Or.inr (Or.inl rfl))) 10 2 1 "2-1" rfl rfl

/-- Claim C2: for every stake and odds, the payout is `stake * odds` for Win,
`stake + stake * (odds − 1) * 0.5` for Half Win, `stake` for Push,
`stake * 0.5` for Half Loss and `0` for Loss; at stake 100 and odds 1.86
(= 186/100) the payouts are 186, 143, 100, 50 and 0. -/
theorem C2_payout_formulas :
    (∀ stake odds : ℚ,
      calculatePayout "Win" stake odds = stake * odds ∧
      calculatePayout "Half Win" stake odds = stake + stake * (odds - 1) * (1 / 2) ∧
      calculatePayout "Push" stake odds = stake ∧
      calculatePayout "Half Loss" stake odds = stake * (1 / 2) ∧
      calculatePayout "Loss" stake odds = 0)
    ∧ calculatePayout "Win" 100 (186 / 100) = 186
    ∧ calculatePayout "Half Win" 100 (186 / 100) = 143
    ∧ calculatePayout "Push" 100 (186 / 100) = 100
    ∧ calculatePayout "Half Loss" 100 (186 / 100) = 50
    ∧ calculatePayout "Loss" 100 (186 / 100) = 0 := by
  refine ⟨fun stake odds => ⟨rfl, rfl, rfl, rfl, rfl⟩, ?_, ?_, rfl, ?_, rfl⟩
  · show (100 : ℚ) * (186 / 100) = 186
    norm_num
  · show (100 : ℚ) + 100 * (186 / 100 - 1) * (1 / 2) = 143
    norm_num
  · show (100 : ℚ) * (1 / 2) = 50
    norm_num

/-- Counterexample to claim C7: on an unrecognized selection type the engine
does not fail with `InvalidSelection`; it returns the sentinel `'Pending'`. -/
theorem C7_counterexample :
    calculateEnhancedPredictedResult "Draw" 0 none "2-1" = "Pending" := rfl

/-- Claim C7 amended: for every selection type outside the four recognized
values the engine returns the untouched sentinel `'Pending'` — no
classification and no partial result, but no `InvalidSelection` failure
either. -/
theorem C7_amended_pending (sel : String) (line : ℚ) (b : Option String) (s : String)
    (h1 : sel ≠ "Home Team") (h2 : sel ≠ "Away Team")
    (h3 : sel ≠ "Over") (h4 : sel ≠ "Under") :
    calculateEnhancedPredictedResult sel line b s = "Pending" := by
  simp [calculateEnhancedPredictedResult, h1, h2, h3, h4]

/-- Witness for the amended C7 at a concrete unrecognized selection. -/
theorem C7_amended_pending_witness :
    calculateEnhancedPredictedResult "Both Teams To Score" 2 (some "1-0") "3-3" = "Pending" :=
  C7_amended_pending "Both Teams To Score" 2 (some "1-0") "3-3"
    (by decide) (by decide) (by decide) (by decide)

/-- Claim C8: Over/Under classification never depends on the bet-time
snapshot — for any two snapshot values (including `null`) and otherwise
identical inputs, the full result string is identical. -/
theorem C8_totals_snapshot_independent (line : ℚ) (b b' : Option String) (s : String) :
    calculateEnhancedPredictedResult "Over" line b s
      = calculateEnhancedPredictedResult "Over" line b' s
    ∧ calculateEnhancedPredictedResult "Under" line b s
      = calculateEnhancedPredictedResult "Under" line b' s :=
  ⟨rfl, rfl⟩

/-- Claim C9: the in-progress mapping collapses Win/Half Win to the hopeful
token, Loss/Half Loss to the worried token and Push to the neutral token,
while the settled mapping gives each of the five classes its own distinct
token. -/
theorem C9_emotion_mappings :
    getInProgressEmotion "Win" = ⟨"🤞", "hopeful", "Looking good!"⟩
    ∧ getInProgressEmotion "Half Win" = ⟨"🤞", "hopeful", "Looking good!"⟩
    ∧ getInProgressEmotion "Loss" = ⟨"😰", "worried", "Not looking good..."⟩
    ∧ getInProgressEmotion "Half Loss" = ⟨"😰", "worried", "Not looking good..."⟩
    ∧ getInProgressEmotion "Push" = ⟨"😐", "neutral", "Too close to call"⟩
    ∧ getEmotionFromResult "Win" = ⟨"🎉", "joy", "Celebrating win!"⟩
    ∧ getEmotionFromResult "Half Win" = ⟨"😊", "relief", "Half win - not bad!"⟩
    ∧ getEmotionFromResult "Push" = ⟨"😐", "neutral", "Push - stake returned"⟩
    ∧ getEmotionFromResult "Half Loss" = ⟨"😕", "annoyed", "Half loss - could be worse"⟩
    ∧ getEmotionFromResult "Loss" = ⟨"😡", "anger", "Lost the bet!"⟩
    ∧ (["Win", "Half Win", "Push", "Half Loss", "Loss"].map
        (fun r => (getEmotionFromResult r).state)).Nodup := by
  refine ⟨rfl, rfl, rfl, rfl, rfl, rfl, rfl, rfl, rfl, rfl, ?_⟩
  decide

/-- Claim C10: every result string that starts with none of Win / Half Win /
Push / Half Loss — including `'Pending'`, `'Invalid'` and arbitrary text —
is paid out 0 for any stake and odds, i.e. silently settled as a full loss. -/
theorem C10_unrecognized_result_is_loss (r : String) (stake odds : ℚ)
    (h1 : jsStartsWith r "Win" = false) (h2 : jsStartsWith r "Half Win" = false)
    (h3 : jsStartsWith r "Push" = false) (h4 : jsStartsWith r "Half Loss" = false) :
    calculatePayout r stake odds = 0 := by
  simp [calculatePayout, h1, h2, h3, h4]

/-- Witness for C10 at `'Pending'`, `'Invalid'` and arbitrary text. -/
theorem C10_unrecognized_result_is_loss_witness :
    calculatePayout "Pending" 100 (186 / 100) = 0
    ∧ calculatePayout "Invalid" 50 2 = 0
    ∧ calculatePayout "whatever text" 7 3 = 0 :=
  ⟨C10_unrecognized_result_is_loss "Pending" 100 (186 / 100) rfl rfl rfl rfl,
   C10_unrecognized_result_is_loss "Invalid" 50 2 rfl rfl rfl rfl,
   C10_unrecognized_result_is_loss "whatever text" 7 3 rfl rfl rfl rfl⟩

/-- Claim C3: for team selections with a parseable bet-time snapshot the
classification margin uses the per-side goal deltas `current − betTime`
(not the absolute differential); with a `null` snapshot the result is the
same as with the snapshot `0-0` — for every selection, line and score. -/
theorem C3_snapshot_delta (sel : String) (hsel : sel = "Home Team" ∨ sel = "Away Team")
    (line : ℚ) (b s : String) (h a : ℕ) (bh ba : ℤ) (p0 p1 : List Char)
    (hb0 : b ≠ "") (hb1 : b ≠ "N/A")
    (hsp : splitDash (b.data.filter (fun c => !jsWhitespace c)) = [p0, p1])
    (hp0 : parseIntJS p0 = some bh) (hp1 : parseIntJS p1 = some ba)
    (hh : currentHome s = some ((h : ℕ) : ℚ)) (ha : currentAway s = some ((a : ℕ) : ℚ)) :
    (∃ t, calculateEnhancedPredictedResult sel line (some b) s
        = classifyMargin (some (round2 ((if sel = "Home Team"
            then ((h : ℚ) - (bh : ℚ)) - ((a : ℚ) - (ba : ℚ))
            else ((a : ℚ) - (ba : ℚ)) - ((h : ℚ) - (bh : ℚ))) + line))) ++ t)
    ∧ (∀ (sel' : String) (line' : ℚ) (s' : String),
        calculateEnhancedPredictedResult sel' line' none s'
          = calculateEnhancedPredictedResult sel' line' (some "0-0") s') := by
  have hadjA : adjustedGoals (some b) s
      = (some (((h : ℕ) : ℚ) - (bh : ℚ)), some (((a : ℕ) : ℚ) - (ba : ℚ))) := by
    simp [adjustedGoals, hb0, hb1, hsp, hp0, hp1, hh, ha, nSub]
  refine ⟨?_, fun sel' line' s' =>
    (calc_adj_congr sel' line' (some "0-0") none s' (adjustedGoals_zero s')).symm⟩
  rcases hsel with rfl | rfl
  · obtain ⟨t, ht⟩ := team_branch "Home Team" (Or.inl rfl) line (some b) s _ _ hadjA
    refine ⟨t, ?_⟩
    rw [ht]
    simp [nSub, nAdd, nRound2]
  · obtain ⟨t, ht⟩ := team_branch "Away Team" (Or.inr rfl) line (some b) s _ _ hadjA
    refine ⟨t, ?_⟩
    rw [ht]
    simp [nSub, nAdd, nRound2]

/-- Witness for C3: Home Team, line 0.25, snapshot 1-0, current score 2-1
(delta 1-1, margin 0.25). -/
theorem C3_snapshot_delta_witness :
    (∃ t, calculateEnhancedPredictedResult "Home Team" (1 / 4) (some "1-0") "2-1"
        = classifyMargin (some (round2 ((if "Home Team" = "Home Team"
            then (((2 : ℕ) : ℚ) - ((1 : ℤ) : ℚ)) - (((1 : ℕ) : ℚ) - ((0 : ℤ) : ℚ))
            else (((1 : ℕ) : ℚ) - ((0 : ℤ) : ℚ)) - (((2 : ℕ) : ℚ) - ((1 : ℤ) : ℚ))) + 1 / 4))) ++ t)
    ∧ (∀ (sel' : String) (line' : ℚ) (s' : String),
        calculateEnhancedPredictedResult sel' line' none s'
          = calculateEnhancedPredictedResult sel' line' (some "0-0") s') :=
  C3_snapshot_delta "Home Team" (Or.inl rfl) (1 / 4) "1-0" "2-1" 2 1 1 0 ['1'] ['0']
    (by decide) (by decide) rfl rfl rfl rfl rfl

/-- Counterexample to claim C4: the payout bound `payout ≤ stake * odds`
fails for positive odds below 1 — a Push at stake 100, odds 0.5 pays 100,
more than `stake * odds = 50` (and no `InvalidArgument` failure occurs:
`calculatePayout` is total). -/
theorem C4_counterexample :
    (0 : ℚ) < 100 ∧ (0 : ℚ) < 1 / 2
    ∧ ¬ (calculatePayout "Push" 100 (1 / 2) ≤ 100 * (1 / 2)) := by
  refine ⟨by norm_num, by norm_num, ?_⟩
  show ¬ ((100 : ℚ) ≤ 100 * (1 / 2))
  norm_num

/-- Claim C4 amended: for any result string, non-negative stake and odds ≥ 1
the payout lies in `[0, stake * odds]`; `calculatePayout` performs no input
validation and never fails — for odds < 1 the upper bound can be exceeded. -/
theorem C4_amended_payout_bounds (r : String) (stake odds : ℚ)
    (hs : 0 ≤ stake) (ho : 1 ≤ odds) :
    0 ≤ calculatePayout r stake odds ∧ calculatePayout r stake odds ≤ stake * odds := by
  have h1 : 0 ≤ stake * (odds - 1) := mul_nonneg hs (by linarith)
  have h2 : 0 ≤ stake * odds := mul_nonneg hs (by linarith)
  unfold calculatePayout
  split_ifs <;> constructor <;> nlinarith

/-- Witness for the amended C4 at Win, stake 100, odds 2. -/
theorem C4_amended_payout_bounds_witness :
    0 ≤ calculatePayout "Win" 100 2 ∧ calculatePayout "Win" 100 2 ≤ 100 * 2 :=
  C4_amended_payout_bounds "Win" 100 2 (by norm_num) (by norm_num)

/-- Counterexample to claim C5: with line 0.3 (not a multiple of 0.25) the
margin 0.3 is outside the five buckets, yet no error is surfaced — the
result is the ordinary outcome class Loss. -/
theorem C5_counterexample :
    jsStartsWith (calculateEnhancedPredictedResult "Home Team" (3 / 10) none "0-0")
      "Loss" = true := by
  obtain ⟨t, ht⟩ := team_branch "Home Team" (Or.inl rfl) (3 / 10) none "0-0"
    (some ((0 : ℕ) : ℚ)) (some ((0 : ℕ) : ℚ)) rfl
  rw [ht]
  have hm : nRound2 (nAdd (if "Home Team" = "Home Team"
      then nSub (some ((0 : ℕ) : ℚ)) (some ((0 : ℕ) : ℚ))
      else nSub (some ((0 : ℕ) : ℚ)) (some ((0 : ℕ) : ℚ))) (some (3 / 10)))
      = some ((3 : ℚ) / 10) := by
    simp only [nSub, nAdd, nRound2, if_pos, Option.map]
    rw [round2_three_tenths]
  rw [hm]
  have hcl : classifyMargin (some ((3 : ℚ) / 10)) = "Loss" := by norm_num [classifyMargin]
  rw [hcl]
  exact jsStartsWith_append "Loss" t

/-- Claim C5 amended: a margin outside the five buckets is never surfaced as
an error; the chain coerces it — any rounded margin below 0.5 that is not
exactly 0.25, 0 or −0.25 is classified Loss. -/
theorem C5_amended_coerced_to_loss (line : ℚ) (s : String) (h a : ℕ)
    (hh : currentHome s = some ((h : ℕ) : ℚ)) (ha : currentAway s = some ((a : ℕ) : ℚ))
    (hm1 : ¬ ((1 : ℚ) / 2 ≤ round2 ((h : ℚ) - (a : ℚ) + line)))
    (hm2 : round2 ((h : ℚ) - (a : ℚ) + line) ≠ 1 / 4)
    (hm3 : round2 ((h : ℚ) - (a : ℚ) + line) ≠ 0)
    (hm4 : round2 ((h : ℚ) - (a : ℚ) + line) ≠ -(1 / 4)) :
    jsStartsWith (calculateEnhancedPredictedResult "Home Team" line none s) "Loss" = true := by
  obtain ⟨t, ht⟩ := team_branch "Home Team" (Or.inl rfl) line none s _ _
    (by rw [adjustedGoals_none, hh, ha])
  rw [ht]
  have hm : nRound2 (nAdd (if "Home Team" = "Home Team"
      then nSub (some ((h : ℕ) : ℚ)) (some ((a : ℕ) : ℚ))
      else nSub (some ((a : ℕ) : ℚ)) (some ((h : ℕ) : ℚ))) (some line))
      = some (round2 ((h : ℚ) - (a : ℚ) + line)) := by
    simp [nSub, nAdd, nRound2]
  rw [hm]
  have hcl : classifyMargin (some (round2 ((h : ℚ) - (a : ℚ) + line))) = "Loss" := by
    rw [classify_some]
    simp only [specClassify]
    rw [if_neg hm1, if_neg hm2, if_neg hm3, if_neg hm4]
  rw [hcl]
  exact jsStartsWith_append "Loss" t

/-- Witness for the amended C5 at line 0.3, score 0-0. -/
theorem C5_amended_coerced_to_loss_witness :
    jsStartsWith (calculateEnhancedPredictedResult "Home Team" (3 / 10) none "0-0")
      "Loss" = true ∧ round2 (((0 : ℕ) : ℚ) - ((0 : ℕ) : ℚ) + 3 / 10) = 3 / 10 :=
  ⟨C5_amended_coerced_to_loss (3 / 10) "0-0" 0 0 rfl rfl
      (by rw [round2_three_tenths]; norm_num)
      (by rw [round2_three_tenths]; norm_num)
      (by rw [round2_three_tenths]; norm_num)
      (by rw [round2_three_tenths]; norm_num),
   round2_three_tenths⟩

/-- Counterexample to claim C6: the unparseable snapshot `'abc'` is silently
ignored — no `InvalidScore` error, no abort: the evaluation proceeds exactly
as with no snapshot, and at line 0.25 and score 0-0 still produces the
outcome Half Win. -/
theorem C6_counterexample :
    calculateEnhancedPredictedResult "Home Team" (1 / 4) (some "abc") "0-0"
      = calculateEnhancedPredictedResult "Home Team" (1 / 4) none "0-0"
    ∧ jsStartsWith (calculateEnhancedPredictedResult "Home Team" (1 / 4) (some "abc") "0-0")
        "Half Win" = true := by
  constructor
  · rfl
  · obtain ⟨t, ht⟩ := team_branch "Home Team" (Or.inl rfl) (1 / 4) (some "abc") "0-0"
      (some ((0 : ℕ) : ℚ)) (some ((0 : ℕ) : ℚ)) rfl
    rw [ht]
    have hm : nRound2 (nAdd (if "Home Team" = "Home Team"
        then nSub (some ((0 : ℕ) : ℚ)) (some ((0 : ℕ) : ℚ))
        else nSub (some ((0 : ℕ) : ℚ)) (some ((0 : ℕ) : ℚ))) (some (1 / 4)))
        = some ((1 : ℚ) / 4) := by
      simp only [nSub, nAdd, nRound2, if_pos, Option.map]
      rw [show ((0 : ℕ) : ℚ) - ((0 : ℕ) : ℚ) + 1 / 4 = ((1 : ℤ) : ℚ) / 4 by norm_num,
        round2_quarter]
      norm_num
    rw [hm]
    have hcl : classifyMargin (some ((1 : ℚ) / 4)) = "Half Win" := by
      norm_num [classifyMargin]
    rw [hcl]
    exact jsStartsWith_append "Half Win" t

/-- Claim C6 amended: unparseable scores are not rejected.  A snapshot that
does not split into exactly two numeric parts — whether it fails the
two-part `split('-')` check or `parseInt` yields `NaN` on a part, as with
`'1-x'` — is silently dropped: the result equals the null-snapshot result
for every selection, line and current score.  And an unparseable current
score is not rejected either: for each of the four recognized selections
and any snapshot, if either side of the current score is `NaN`, it
propagates and the classification chain's final `else` yields Loss. -/
theorem C6_amended_silent_defaults (b : String)
    (hb : ∀ p0 p1, splitDash (b.data.filter (fun c => !jsWhitespace c)) = [p0, p1] →
      parseIntJS p0 = none ∨ parseIntJS p1 = none) :
    (∀ (sel : String) (line : ℚ) (s : String),
      calculateEnhancedPredictedResult sel line (some b) s
        = calculateEnhancedPredictedResult sel line none s)
    ∧ (∀ sel' : String,
        sel' = "Home Team" ∨ sel' = "Away Team" ∨ sel' = "Over" ∨ sel' = "Under" →
        ∀ (line' : ℚ) (b' : Option String) (s' : String),
          currentHome s' = none ∨ currentAway s' = none →
          jsStartsWith (calculateEnhancedPredictedResult sel' line' b' s') "Loss" = true) := by
  refine ⟨fun sel line s => calc_adj_congr sel line (some b) none s (snapshot_skipped b s hb),
    fun sel' hsel' line' b' s' hnan => ?_⟩
  obtain ⟨u, v, huv⟩ := adjustedGoals_sub_form b' s'
  rcases hsel' with rfl | rfl | rfl | rfl
  · obtain ⟨t, ht⟩ := team_branch "Home Team" (Or.inl rfl) line' b' s' _ _ huv
    rw [ht]
    rcases hnan with h | h <;>
      simp [h, nSub_none_left, nSub_none_right, nAdd_none_left, nAdd_none_right,
        nRound2_none, classifyMargin_none, jsStartsWith_append]
  · obtain ⟨t, ht⟩ := team_branch "Away Team" (Or.inr rfl) line' b' s' _ _ huv
    rw [ht]
    rcases hnan with h | h <;>
      simp [h, nSub_none_left, nSub_none_right, nAdd_none_left, nAdd_none_right,
        nRound2_none, classifyMargin_none, jsStartsWith_append]
  · obtain ⟨t, ht⟩ := totals_branch "Over" (Or.inl rfl) line' b' s'
    rw [ht]
    rcases hnan with h | h <;>
      simp [h, nSub_none_left, nSub_none_right, nAdd_none_left, nAdd_none_right,
        nRound2_none, classifyMargin_none, jsStartsWith_append]
  · obtain ⟨t, ht⟩ := totals_branch "Under" (Or.inr rfl) line' b' s'
    rw [ht]
    rcases hnan with h | h <;>
      simp [h, nSub_none_left, nSub_none_right, nAdd_none_left, nAdd_none_right,
        nRound2_none, classifyMargin_none, jsStartsWith_append]

/-- Witness for the amended C6: the two-part non-numeric snapshot `'1-x'`
(skipped by the `isNaN` check) with an Over bet, and the unparseable current
score `'x-0'` on a Home Team bet. -/
theorem C6_amended_silent_defaults_witness :
    calculateEnhancedPredictedResult "Over" 2 (some "1-x") "5-1"
      = calculateEnhancedPredictedResult "Over" 2 none "5-1"
    ∧ jsStartsWith (calculateEnhancedPredictedResult "Home Team" (1 / 4) none "x-0")
        "Loss" = true :=
  have hb : ∀ p0 p1, splitDash (("1-x").data.filter (fun c => !jsWhitespace c)) = [p0, p1] →
      parseIntJS p0 = none ∨ parseIntJS p1 = none := by
    intro p0 p1 h
    injection h with h1 h2
    injection h2 with h3 h4
    subst h3
    exact Or.inr rfl
  ⟨(C6_amended_silent_defaults "1-x" hb).1 "Over" 2 "5-1",
   (C6_amended_silent_defaults "1-x" hb).2 "Home Team" (Or.inl rfl) (1 / 4) none "x-0"
     (Or.inl rfl)⟩

end WagerWire
